import Mathlib

/-!
Verification of the text-to-video generator (`src/main.py`) against its
natural-language specification.

The development shallowly embeds the repository's own logic:

* `wordCount` / `estimateDuration` embed `ScriptSegment._estimate_duration`,
  with Python floats modelled as rationals.
* `charsPerLine` embeds the wrap-width arithmetic of
  `TextToVideoGenerator._create_text_overlay`; Python `int()` truncation is
  modelled by `pyInt`.
* `VideoConfig` / `saveConfig` / `loadConfig` embed the JSON configuration
  round trip.  Because Python's `json` module serialises tuples as JSON
  arrays and deserialises arrays as lists, tuple-valued fields are modelled
  by the `PySeq` type that distinguishes the two shapes.
* `generate` embeds `TextToVideoGenerator.generate_video` as explicit state
  passing over a `RunState` (abstract filesystem, temp-file registry,
  render-attempt log), with an `Env` oracle supplying the outcomes of the
  external calls (background image load, speech synthesis, concatenation,
  final encode, `os.unlink`).  Exceptions are modelled with `Except`; the
  Python `except Exception` / `finally` structure of `generate_video` is the
  wrapper in `generate`.
-/

/-! ## Duration estimator (`ScriptSegment._estimate_duration`) -/

/-- Word counting as done by Python's `str.split()` with no arguments:
split on runs of whitespace, discarding empty pieces.  Counts the words of
a character list; the flag records whether we are currently inside a word. -/
def wcAux : List Char → Bool → Nat
  | [], _ => 0
  | c :: rest, inWord =>
    if c.isWhitespace then wcAux rest false
    else (if inWord then 0 else 1) + wcAux rest true

/-- `len(text.split())` from `_estimate_duration`. -/
def wordCount (s : String) : Nat := wcAux s.data false

/-- `_estimate_duration`: `duration = (word_count / words_per_minute) * 60`,
then `max(duration, 2.0)`.  The Python default argument is
`words_per_minute = 150`; the rate is passed explicitly here. -/
def estimateDuration (text : String) (rate : ℚ) : ℚ :=
  max ((wordCount text : ℚ) / rate * 60) 2

/-- `ScriptSegment` after `__post_init__` has run: the duration field is
always populated. -/
structure ScriptSegment where
  text : String
  duration : ℚ
  fontSize : Option ℤ
  deriving DecidableEq, Inhabited

/-- Constructing a `ScriptSegment`: `__post_init__` replaces a missing
duration by `self._estimate_duration()`, which uses the default rate 150. -/
def mkScriptSegment (text : String) (duration : Option ℚ) (fontSize : Option ℤ) :
    ScriptSegment :=
  { text := text
    duration := match duration with
      | some d => d
      | none => estimateDuration text 150
    fontSize := fontSize }

/-! ## Wrap-width arithmetic (`_create_text_overlay`) -/

/-- Python `int()` applied to a float: truncation toward zero. -/
def pyInt (q : ℚ) : ℤ :=
  if q < 0 then -Int.floor (-q) else Int.floor q

/-- `chars_per_line = max(1, int(max_width / avg_char_width * 0.8))` with
`max_width = width - margin`, from `_create_text_overlay`. -/
def charsPerLine (width margin : ℤ) (avgCharWidth : ℚ) : ℤ :=
  max 1 (pyInt (((width : ℚ) - (margin : ℚ)) / avgCharWidth * (4 / 5)))

/-- The wrap width as the specification words it:
`max(1, floor((canvas_width - margin) / avg_glyph_width * 0.8))`. -/
def wrapWidthSpec (width margin : ℤ) (avgCharWidth : ℚ) : ℤ :=
  max 1 (Int.floor (((width : ℚ) - (margin : ℚ)) / avgCharWidth * (4 / 5)))

/-! ## Configuration and its JSON round trip -/

/-- A Python sequence value held in a config field: the dataclass defaults
are tuples, but a JSON reload produces lists.  Python `==` distinguishes
a tuple from a list with the same elements. -/
inductive PySeq where
  | tup (elems : List ℤ)
  | lst (elems : List ℤ)
  deriving DecidableEq

/-- The elements of a `PySeq`; `json.dump` serialises tuples and lists
identically, as JSON arrays of these elements. -/
def PySeq.elems : PySeq → List ℤ
  | .tup l => l
  | .lst l => l

/-- `VideoConfig` with its dataclass defaults. -/
structure VideoConfig where
  width : ℤ := 1920
  height : ℤ := 1080
  fps : ℤ := 24
  fontSize : ℤ := 60
  fontPath : String := "Arial.ttf"
  textColor : PySeq := .tup [255, 255, 255]
  bgOverlayColor : PySeq := .tup [0, 0, 0, 128]
  margin : ℤ := 100
  padding : ℤ := 20
  wordsPerMinute : ℤ := 150
  minDuration : ℚ := 2
  ttsLanguage : String := "en"
  ttsSlow : Bool := false
  deriving DecidableEq

/-- The flat JSON document written by `save_config`: key → scalar or array.
Tuples and lists have both become plain arrays here. -/
structure ConfigDoc where
  width : ℤ
  height : ℤ
  fps : ℤ
  fontSize : ℤ
  fontPath : String
  textColor : List ℤ
  bgOverlayColor : List ℤ
  margin : ℤ
  padding : ℤ
  wordsPerMinute : ℤ
  minDuration : ℚ
  ttsLanguage : String
  ttsSlow : Bool
  deriving DecidableEq

/-- `save_config`: dump every field to the JSON document; `json.dump`
encodes a tuple as an array. -/
def saveConfig (c : VideoConfig) : ConfigDoc :=
  { width := c.width
    height := c.height
    fps := c.fps
    fontSize := c.fontSize
    fontPath := c.fontPath
    textColor := c.textColor.elems
    bgOverlayColor := c.bgOverlayColor.elems
    margin := c.margin
    padding := c.padding
    wordsPerMinute := c.wordsPerMinute
    minDuration := c.minDuration
    ttsLanguage := c.ttsLanguage
    ttsSlow := c.ttsSlow }

/-- `load_config`: `json.load` turns a JSON array into a Python list, and
`VideoConfig(**config_dict)` stores it as-is. -/
def loadConfig (d : ConfigDoc) : VideoConfig :=
  { width := d.width
    height := d.height
    fps := d.fps
    fontSize := d.fontSize
    fontPath := d.fontPath
    textColor := .lst d.textColor
    bgOverlayColor := .lst d.bgOverlayColor
    margin := d.margin
    padding := d.padding
    wordsPerMinute := d.wordsPerMinute
    minDuration := d.minDuration
    ttsLanguage := d.ttsLanguage
    ttsSlow := d.ttsSlow }

/-! ## Pipeline model (`generate_video` and `_create_video_segment`) -/

/-- The Python exceptions that can arise in the pipeline.  All of them are
subclasses of `Exception`, hence caught by `except Exception`. -/
inductive PyErr where
  | valueError
  | osError
  | gttsError
  | typeError
  | runtimeError
  deriving DecidableEq

/-- One item of the `script_data` argument of `generate_video`, classified
the way the normalisation loop classifies it with `isinstance`:
a plain string, a 2-tuple `(text, duration)`, a `ScriptSegment`, or
anything else (which raises `ValueError`). -/
inductive ScriptItem where
  | str (s : String)
  | pair (s : String) (d : ℚ)
  | seg (s : ScriptSegment)
  | other
  deriving DecidableEq

/-- Normalisation of a single item, as in the loop of `generate_video`. -/
def normalizeOne : ScriptItem → Except PyErr ScriptSegment
  | .str s => .ok (mkScriptSegment s none none)
  | .pair s d => .ok (mkScriptSegment s (some d) none)
  | .seg s => .ok s
  | .other => .error .valueError

/-- The normalisation loop: items are processed left to right and the first
unrecognised item raises `ValueError`, aborting before any rendering. -/
def normalizeScript : List ScriptItem → Except PyErr (List ScriptSegment)
  | [] => .ok []
  | item :: rest =>
    match normalizeOne item with
    | .error e => .error e
    | .ok seg =>
      match normalizeScript rest with
      | .error e => .error e
      | .ok segs => .ok (seg :: segs)

/-- Normalisation as performed inside `generate_video` on a generator that
holds a configuration.  The source never consults `self.config` in the
normalisation loop nor in `__post_init__`, so the configuration parameter
is unused — that fact is the content of claim C10. -/
def normalizeUnder (_c : VideoConfig) (items : List ScriptItem) :
    Except PyErr (List ScriptSegment) :=
  normalizeScript items

/-- A rendered clip: a still image held for `duration` seconds, optionally
carrying an audio track (recorded with its measured duration). -/
structure Clip where
  duration : ℚ
  audio : Option ℚ
  image : String
  deriving DecidableEq

/-- Environment oracle: outcomes of the external calls made during one run.
`bgLoad i` is the result of `Image.open` for segment `i` (`none` = success),
`tts i` the result of `gTTS(...).save` together with the audio duration
measured by `AudioFileClip`, `concatErr` / `writeErr` possible exceptions of
`concatenate_videoclips` / `write_videofile`, and `unlinkFails p` whether
`os.unlink(p)` raises. -/
structure Env where
  initFs : List String
  bgLoad : Nat → Option PyErr
  tts : Nat → Except PyErr ℚ
  concatErr : Option PyErr
  writeErr : Option PyErr
  unlinkFails : String → Bool

/-- Mutable state of one run: the abstract filesystem (set of existing
paths, as a list with membership semantics), the live `self.temp_files`
registry, the ghost log of every path ever registered during the run, the
ghost log of segment indices whose render was attempted, and whether the
final encode ran. -/
structure RunState where
  fs : List String
  tempFiles : List String
  registered : List String
  renderAttempts : List Nat
  encoded : Bool

/-- Path of the temporary composited image for segment `i`
(`tempfile.NamedTemporaryFile(suffix=".png")`, name abstracted). -/
def tempImagePath (i : Nat) : String :=
  "temp_image_" ++ toString i ++ ".png"

/-- Path of the temporary audio file for segment `i`
(`f"temp_audio_{segment_index}_{os.getpid()}.mp3"`, pid abstracted). -/
def tempAudioPath (i : Nat) : String :=
  "temp_audio_" ++ toString i ++ ".mp3"

/-- `self.temp_files.append(p)`: registers `p`; also logged in the ghost
`registered` field, which cleanup never clears. -/
def registerTemp (p : String) (st : RunState) : RunState :=
  { st with tempFiles := st.tempFiles ++ [p], registered := st.registered ++ [p] }

/-- Creation of a file at path `p` (saving an image, a synthesised audio
file, the encoded video): afterwards `p` exists. -/
def createFile (p : String) (st : RunState) : RunState :=
  if p ∈ st.fs then st else { st with fs := p :: st.fs }

/-- `_create_video_segment`: load the background (abort this segment on
failure), composite and save the temp image (registered), register the
audio path and attempt TTS; on success pair the image with the audio for
`max(segment.duration, audio.duration)` seconds, on failure produce an
image-only clip held for `segment.duration`. -/
def createVideoSegment (env : Env) (seg : ScriptSegment) (i : Nat)
    (st : RunState) : Option Clip × RunState :=
  let st := { st with renderAttempts := st.renderAttempts ++ [i] }
  match env.bgLoad i with
  | some _ => (none, st)
  | none =>
    let imgPath := tempImagePath i
    let st := registerTemp imgPath (createFile imgPath st)
    let audioPath := tempAudioPath i
    let st := registerTemp audioPath st
    match env.tts i with
    | .ok d =>
      (some { duration := max seg.duration d, audio := some d, image := imgPath },
       createFile audioPath st)
    | .error _ =>
      (some { duration := seg.duration, audio := none, image := imgPath }, st)

/-- The clip produced for segment `i` as a pure value: it depends only on
the environment, the segment and the index, not on the run state. -/
def segmentClip (env : Env) (seg : ScriptSegment) (i : Nat) : Option Clip :=
  match env.bgLoad i with
  | some _ => none
  | none =>
    match env.tts i with
    | .ok d =>
      some { duration := max seg.duration d, audio := some d, image := tempImagePath i }
    | .error _ =>
      some { duration := seg.duration, audio := none, image := tempImagePath i }

/-- The render loop of `generate_video`: segments in order, successful
clips appended in order, failures logged and skipped. -/
def renderLoop (env : Env) : List ScriptSegment → Nat → RunState →
    List Clip × RunState
  | [], _, st => ([], st)
  | seg :: rest, i, st =>
    let r := createVideoSegment env seg i st
    let r' := renderLoop env rest (i + 1) r.2
    (match r.1 with
     | some c => c :: r'.1
     | none => r'.1, r'.2)

/-- Outcome of the `try` body of `generate_video`, before the
`except`/`finally` wrapper: the returned value or raised exception, the
clip list handed to concatenation, and the run state. -/
structure GenOut where
  result : Except PyErr Bool
  clips : List Clip
  state : RunState

/-- Initial state of a run. -/
def initState (env : Env) : RunState :=
  { fs := env.initFs, tempFiles := [], registered := [], renderAttempts := [],
    encoded := false }

/-- State after the default-background step of `generate_video`: if the
background path does not exist, a default gradient image is written there. -/
def preState (env : Env) (bgPath : String) : RunState :=
  if bgPath ∈ (initState env).fs then initState env
  else createFile bgPath (initState env)

/-- The `try` body of `generate_video`: normalise (may raise), create the
default background if the path does not exist, `_validate_inputs` (raises
on an empty segment list), render all segments, raise if no clip
succeeded, concatenate, encode.  Returns `True` when everything worked. -/
def generateAux (env : Env) (items : List ScriptItem)
    (bgPath outPath : String) : GenOut :=
  match normalizeScript items with
  | .error e => ⟨.error e, [], initState env⟩
  | .ok segs =>
    let st1 := preState env bgPath
    if segs.isEmpty then ⟨.error .valueError, [], st1⟩
    else
      let r := renderLoop env segs 0 st1
      if r.1.isEmpty then ⟨.error .valueError, r.1, r.2⟩
      else
        match env.concatErr with
        | some e => ⟨.error e, r.1, r.2⟩
        | none =>
          match env.writeErr with
          | some e => ⟨.error e, r.1, r.2⟩
          | none => ⟨.ok true, r.1, { createFile outPath r.2 with encoded := true }⟩

/-- One iteration of `_cleanup_temp_files`: if the file exists, try
`os.unlink`; a failing unlink is logged and the file remains. -/
def unlinkStep (env : Env) (fs : List String) (p : String) : List String :=
  if p ∈ fs ∧ env.unlinkFails p = false then fs.filter (fun q => q != p) else fs

/-- `_cleanup_temp_files`: iterate `unlinkStep` over the registered paths
in order, then `self.temp_files.clear()`. -/
def cleanupTempFiles (env : Env) (st : RunState) : RunState :=
  { st with
    fs := st.tempFiles.foldl (unlinkStep env) st.fs
    tempFiles := [] }

/-- `generate_video` with its `except Exception` / `finally` wrapper: every
raised exception (all modelled errors derive from `Exception`) is caught
and turned into the return value `False`; cleanup always runs first. -/
def generate (env : Env) (items : List ScriptItem) (bgPath outPath : String) :
    Except PyErr Bool × RunState :=
  let g := generateAux env items bgPath outPath
  let st := cleanupTempFiles env g.state
  (match g.result with
   | .error _ => .ok false
   | .ok b => .ok b, st)

/-! ## Helper lemmas -/

lemma max_one_pyInt (q : ℚ) : max 1 (pyInt q) = max 1 (Int.floor q) := by
  unfold pyInt
  split
  · rename_i hq
    have h2 : Int.floor q ≤ 0 := Int.floor_nonpos hq.le
    have h3 : 0 ≤ Int.floor (-q) := Int.floor_nonneg.mpr (by linarith)
    rw [max_eq_left (by omega), max_eq_left (by omega)]
  · rfl

/-! ## Claim theorems: duration estimator, wrap width, configuration -/

/-- Claim C1: the duration estimator splits the text on whitespace to count
words and returns `max(word_count / rate * 60, 2.0)` at the fixed default
rate 150; the result is at least 2.0 seconds, positive, and monotone in the
word count at that rate. -/
theorem c1_duration_estimator (t1 t2 : String)
    (h : wordCount t1 ≤ wordCount t2) :
    estimateDuration t1 150 = max ((wordCount t1 : ℚ) / 150 * 60) 2 ∧
    2 ≤ estimateDuration t1 150 ∧
    0 < estimateDuration t1 150 ∧
    estimateDuration t1 150 ≤ estimateDuration t2 150 := by
  refine ⟨rfl, le_max_right _ _, lt_of_lt_of_le (by norm_num) (le_max_right _ _), ?_⟩
  have hc : ((wordCount t1 : ℚ)) ≤ (wordCount t2 : ℚ) := by exact_mod_cast h
  have e : ∀ x : ℚ, x / 150 * 60 = x * (2 / 5) := fun x => by ring
  unfold estimateDuration
  rw [e, e]
  exact max_le_max (mul_le_mul_of_nonneg_right hc (by norm_num)) le_rfl

/-- Witness for C1 at two concrete texts of 2 and 4 words. -/
theorem c1_duration_estimator_witness :
    wordCount "hello there" ≤ wordCount "one two three four" ∧
    (estimateDuration "hello there" 150 =
        max ((wordCount "hello there" : ℚ) / 150 * 60) 2 ∧
      2 ≤ estimateDuration "hello there" 150 ∧
      0 < estimateDuration "hello there" 150 ∧
      estimateDuration "hello there" 150 ≤
        estimateDuration "one two three four" 150) :=
  ⟨by decide, c1_duration_estimator "hello there" "one two three four" (by decide)⟩

/-- Claim C9: the wrap width computed with Python `int()` truncation equals
`max(1, floor((canvas_width - margin) / avg_glyph_width * 0.8))` and is
always at least 1. -/
theorem c9_wrap_width (w m : ℤ) (avg : ℚ) (h : 0 < avg) :
    charsPerLine w m avg = wrapWidthSpec w m avg ∧ 1 ≤ charsPerLine w m avg := by
  constructor
  · unfold charsPerLine wrapWidthSpec
    exact max_one_pyInt _
  · unfold charsPerLine
    exact le_max_left _ _

/-- Witness for C9 at the default canvas width 1920, margin 100 and an
average glyph width of 12 pixels. -/
theorem c9_wrap_width_witness :
    (0 : ℚ) < 12 ∧
    (charsPerLine 1920 100 12 = wrapWidthSpec 1920 100 12 ∧
      1 ≤ charsPerLine 1920 100 12) :=
  ⟨by decide, c9_wrap_width 1920 100 12 (by decide)⟩

/-- Counterexample to claim C4 as stated: saving the default configuration
and reloading it does not give back an identical configuration, because the
tuple-valued colour fields come back as Python lists, and a list is not
equal to a tuple. -/
theorem c4_config_roundtrip_counterexample :
    loadConfig (saveConfig ({} : VideoConfig)) ≠ ({} : VideoConfig) := by
  decide

/-- Claim C4, amended: the reload agrees with the original on every
scalar, string and boolean field; the two colour fields come back as lists
holding exactly the original elements.  Consequently a second round trip is
the identity. -/
theorem c4_config_roundtrip_amended (c : VideoConfig) :
    loadConfig (saveConfig c) =
      { c with textColor := .lst c.textColor.elems,
               bgOverlayColor := .lst c.bgOverlayColor.elems } ∧
    loadConfig (saveConfig (loadConfig (saveConfig c))) =
      loadConfig (saveConfig c) :=
  ⟨rfl, rfl⟩

/-- Claim C10: the configured `words_per_minute` has no effect on the
estimated segment durations, because the normalisation inside
`generate_video` constructs segments without consulting the configuration
and `__post_init__` invokes the estimator at its fixed default rate 150. -/
theorem c10_wpm_independent (c1 c2 : VideoConfig)
    (h : c1 = { c2 with wordsPerMinute := c1.wordsPerMinute })
    (items : List ScriptItem) :
    normalizeUnder c1 items = normalizeUnder c2 items ∧
    ∀ t : String, (mkScriptSegment t none none).duration = estimateDuration t 150 :=
  ⟨rfl, fun _ => rfl⟩

/-- Configuration with a speaking rate of 140 words per minute, as in the
repository's demo; all other fields default. -/
def cfgA : VideoConfig := { wordsPerMinute := 140 }

/-- The default configuration (150 words per minute). -/
def cfgB : VideoConfig := {}

/-- Witness for C10: two configurations differing only in the speaking
rate normalise the same script identically. -/
theorem c10_wpm_independent_witness :
    normalizeUnder cfgA [ScriptItem.str "hello world"] =
      normalizeUnder cfgB [ScriptItem.str "hello world"] :=
  (c10_wpm_independent cfgA cfgB rfl [ScriptItem.str "hello world"]).1

/-! ## Lemmas about cleanup -/

lemma unlinkStep_subset (env : Env) (fs : List String) (p q : String)
    (h : q ∈ unlinkStep env fs p) : q ∈ fs := by
  unfold unlinkStep at h
  split at h
  · exact (List.mem_filter.mp h).1
  · exact h

lemma foldl_unlinkStep_subset (env : Env) (l : List String) :
    ∀ fs q, q ∈ l.foldl (unlinkStep env) fs → q ∈ fs := by
  induction l with
  | nil => intro fs q h; exact h
  | cons a l ih =>
    intro fs q h
    rw [List.foldl_cons] at h
    exact unlinkStep_subset env fs a q (ih _ q h)

lemma unlinkStep_removes (env : Env) (fs : List String) (p : String)
    (h : env.unlinkFails p = false) : p ∉ unlinkStep env fs p := by
  unfold unlinkStep
  split
  · intro hc
    have := (List.mem_filter.mp hc).2
    simp at this
  · rename_i hcond
    intro hc
    exact hcond ⟨hc, h⟩

lemma foldl_unlinkStep_removes (env : Env) (l : List String) :
    ∀ fs p, p ∈ l → env.unlinkFails p = false →
      p ∉ l.foldl (unlinkStep env) fs := by
  induction l with
  | nil => intro fs p h _; cases h
  | cons a l ih =>
    intro fs p hmem hfail
    rw [List.foldl_cons]
    rcases List.mem_cons.mp hmem with heq | htail
    · subst heq
      intro hc
      exact unlinkStep_removes env fs p hfail
        (foldl_unlinkStep_subset env l _ p hc)
    · exact ih _ p htail hfail

lemma cleanupTempFiles_subset (env : Env) (st : RunState) (q : String)
    (h : q ∈ (cleanupTempFiles env st).fs) : q ∈ st.fs :=
  foldl_unlinkStep_subset env st.tempFiles st.fs q h

lemma cleanupTempFiles_removes (env : Env) (st : RunState) (p : String)
    (hmem : p ∈ st.tempFiles) (hfail : env.unlinkFails p = false) :
    p ∉ (cleanupTempFiles env st).fs :=
  foldl_unlinkStep_removes env st.tempFiles st.fs p hmem hfail

/-! ## Lemmas about the segment renderer -/

lemma createVideoSegment_clip (env : Env) (seg : ScriptSegment) (i : Nat)
    (st : RunState) :
    (createVideoSegment env seg i st).1 = segmentClip env seg i := by
  unfold createVideoSegment segmentClip
  cases h : env.bgLoad i with
  | some e => simp [h]
  | none =>
    cases h2 : env.tts i with
    | ok d => simp [h, h2]
    | error e => simp [h, h2]

lemma segmentClip_isSome (env : Env) (seg : ScriptSegment) (i : Nat)
    (hb : env.bgLoad i = none) : ∃ c, segmentClip env seg i = some c := by
  unfold segmentClip
  rw [hb]
  cases env.tts i <;> exact ⟨_, rfl⟩

lemma createVideoSegment_encoded (env : Env) (seg : ScriptSegment) (i : Nat)
    (st : RunState) :
    ((createVideoSegment env seg i st).2).encoded = st.encoded := by
  unfold createVideoSegment registerTemp createFile
  cases h : env.bgLoad i with
  | some e => simp [h]
  | none =>
    cases h2 : env.tts i with
    | ok d =>
      simp only [h, h2]
      repeat' split
      all_goals rfl
    | error e =>
      simp only [h, h2]
      repeat' split
      all_goals rfl

lemma createVideoSegment_reg_temp (env : Env) (seg : ScriptSegment) (i : Nat)
    (st : RunState) (h : st.registered = st.tempFiles) :
    ((createVideoSegment env seg i st).2).registered =
      ((createVideoSegment env seg i st).2).tempFiles := by
  unfold createVideoSegment registerTemp createFile
  cases hb : env.bgLoad i with
  | some e => simpa [hb] using h
  | none =>
    cases h2 : env.tts i with
    | ok d =>
      simp only [hb, h2]
      repeat' split
      all_goals simp [h]
    | error e =>
      simp only [hb, h2]
      repeat' split
      all_goals simp [h]

lemma createVideoSegment_temp_mono (env : Env) (seg : ScriptSegment) (i : Nat)
    (st : RunState) (q : String) (hq : q ∈ st.tempFiles) :
    q ∈ ((createVideoSegment env seg i st).2).tempFiles := by
  unfold createVideoSegment registerTemp createFile
  cases hb : env.bgLoad i with
  | some e => simpa [hb] using hq
  | none =>
    cases h2 : env.tts i with
    | ok d =>
      simp only [hb, h2]
      repeat' split
      all_goals simp [hq]
    | error e =>
      simp only [hb, h2]
      repeat' split
      all_goals simp [hq]

lemma createFile_fs_mem (p : String) (st : RunState) (q : String) :
    q ∈ (createFile p st).fs ↔ q = p ∨ q ∈ st.fs := by
  unfold createFile
  split
  · rename_i hp
    constructor
    · exact Or.inr
    · rintro (rfl | h2)
      · exact hp
      · exact h2
  · simp [List.mem_cons]

lemma createFile_tempFiles (p : String) (st : RunState) :
    (createFile p st).tempFiles = st.tempFiles := by
  unfold createFile
  split <;> rfl

lemma createVideoSegment_snd_bgfail (env : Env) (seg : ScriptSegment) (i : Nat)
    (st : RunState) (e : PyErr) (hb : env.bgLoad i = some e) :
    (createVideoSegment env seg i st).2 =
      { st with renderAttempts := st.renderAttempts ++ [i] } := by
  unfold createVideoSegment
  rw [hb]

lemma createVideoSegment_snd_ok (env : Env) (seg : ScriptSegment) (i : Nat)
    (st : RunState) (d : ℚ) (hb : env.bgLoad i = none)
    (ht : env.tts i = .ok d) :
    (createVideoSegment env seg i st).2 =
      createFile (tempAudioPath i)
        (registerTemp (tempAudioPath i)
          (registerTemp (tempImagePath i)
            (createFile (tempImagePath i)
              { st with renderAttempts := st.renderAttempts ++ [i] }))) := by
  unfold createVideoSegment
  rw [hb, ht]

lemma createVideoSegment_snd_ttsfail (env : Env) (seg : ScriptSegment) (i : Nat)
    (st : RunState) (e : PyErr) (hb : env.bgLoad i = none)
    (ht : env.tts i = .error e) :
    (createVideoSegment env seg i st).2 =
      registerTemp (tempAudioPath i)
        (registerTemp (tempImagePath i)
          (createFile (tempImagePath i)
            { st with renderAttempts := st.renderAttempts ++ [i] })) := by
  unfold createVideoSegment
  rw [hb, ht]

lemma createVideoSegment_fs (env : Env) (seg : ScriptSegment) (i : Nat)
    (st : RunState) (q : String)
    (hq : q ∈ ((createVideoSegment env seg i st).2).fs) :
    q ∈ st.fs ∨ q ∈ ((createVideoSegment env seg i st).2).tempFiles := by
  cases hb : env.bgLoad i with
  | some e =>
    rw [createVideoSegment_snd_bgfail env seg i st e hb] at hq
    exact Or.inl hq
  | none =>
    cases h2 : env.tts i with
    | ok d =>
      rw [createVideoSegment_snd_ok env seg i st d hb h2] at hq ⊢
      rw [createFile_fs_mem] at hq
      simp only [registerTemp, createFile_tempFiles] at hq ⊢
      rcases hq with rfl | hq
      · simp
      · rw [createFile_fs_mem] at hq
        rcases hq with rfl | hq
        · simp
        · exact Or.inl hq
    | error e =>
      rw [createVideoSegment_snd_ttsfail env seg i st e hb h2] at hq ⊢
      simp only [registerTemp, createFile_tempFiles] at hq ⊢
      rw [createFile_fs_mem] at hq
      rcases hq with rfl | hq
      · simp
      · exact Or.inl hq

/-! ## Lemmas about the render loop -/

lemma renderLoop_snd_encoded (env : Env) :
    ∀ (segs : List ScriptSegment) (i : Nat) (st : RunState),
      ((renderLoop env segs i st).2).encoded = st.encoded := by
  intro segs
  induction segs with
  | nil => intro i st; rfl
  | cons seg rest ih =>
    intro i st
    show ((renderLoop env rest (i + 1) (createVideoSegment env seg i st).2).2).encoded = st.encoded
    rw [ih]
    exact createVideoSegment_encoded env seg i st

lemma renderLoop_temp_mono (env : Env) :
    ∀ (segs : List ScriptSegment) (i : Nat) (st : RunState) (q : String),
      q ∈ st.tempFiles → q ∈ ((renderLoop env segs i st).2).tempFiles := by
  intro segs
  induction segs with
  | nil => intro i st q hq; exact hq
  | cons seg rest ih =>
    intro i st q hq
    exact ih (i + 1) _ q (createVideoSegment_temp_mono env seg i st q hq)

lemma renderLoop_reg_temp (env : Env) :
    ∀ (segs : List ScriptSegment) (i : Nat) (st : RunState),
      st.registered = st.tempFiles →
      ((renderLoop env segs i st).2).registered =
        ((renderLoop env segs i st).2).tempFiles := by
  intro segs
  induction segs with
  | nil => intro i st h; exact h
  | cons seg rest ih =>
    intro i st h
    exact ih (i + 1) _ (createVideoSegment_reg_temp env seg i st h)

lemma renderLoop_fs (env : Env) :
    ∀ (segs : List ScriptSegment) (i : Nat) (st : RunState) (q : String),
      q ∈ ((renderLoop env segs i st).2).fs →
      q ∈ st.fs ∨ q ∈ ((renderLoop env segs i st).2).tempFiles := by
  intro segs
  induction segs with
  | nil => intro i st q hq; exact Or.inl hq
  | cons seg rest ih =>
    intro i st q hq
    rcases ih (i + 1) (createVideoSegment env seg i st).2 q hq with h1 | h2
    · rcases createVideoSegment_fs env seg i st q h1 with h3 | h4
      · exact Or.inl h3
      · exact Or.inr (renderLoop_temp_mono env rest (i + 1) _ q h4)
    · exact Or.inr h2

lemma renderLoop_clips_eq (env : Env) :
    ∀ (segs : List ScriptSegment) (i : Nat) (st : RunState),
      (renderLoop env segs i st).1 =
        (List.range segs.length).filterMap
          (fun k => segmentClip env (segs.getD k default) (i + k)) := by
  intro segs
  induction segs with
  | nil => intro i st; rfl
  | cons seg rest ih =>
    intro i st
    have hshape : (renderLoop env (seg :: rest) i st).1 =
        (match segmentClip env seg i with
         | some c =>
             c :: (renderLoop env rest (i + 1) (createVideoSegment env seg i st).2).1
         | none =>
             (renderLoop env rest (i + 1) (createVideoSegment env seg i st).2).1) := by
      show (match (createVideoSegment env seg i st).1 with
        | some c =>
            c :: (renderLoop env rest (i + 1) (createVideoSegment env seg i st).2).1
        | none =>
            (renderLoop env rest (i + 1) (createVideoSegment env seg i st).2).1) = _
      rw [createVideoSegment_clip]
    rw [hshape, ih]
    rw [List.length_cons, List.range_succ_eq_map, List.filterMap_cons,
      List.filterMap_map]
    have hfun : ((fun k => segmentClip env ((seg :: rest).getD k default) (i + k)) ∘
        Nat.succ) =
        fun k => segmentClip env (rest.getD k default) ((i + 1) + k) := by
      funext k
      have he : i + (k + 1) = (i + 1) + k := by omega
      simp [Function.comp, he]
    rw [hfun]
    cases h : segmentClip env seg i <;> simp [h]

lemma renderLoop_clips (env : Env) :
    ∀ (segs : List ScriptSegment) (i : Nat) (st : RunState),
      (∀ k, k < segs.length → env.bgLoad (i + k) = none) →
      ((renderLoop env segs i st).1).length = segs.length ∧
      ∀ k, k < segs.length →
        ((renderLoop env segs i st).1)[k]? =
          segmentClip env (segs.getD k default) (i + k) := by
  intro segs
  induction segs with
  | nil =>
    intro i st _
    exact ⟨rfl, fun k hk => absurd hk (by simp)⟩
  | cons seg rest ih =>
    intro i st h
    have hb : env.bgLoad i = none := by simpa using h 0 (by simp)
    obtain ⟨c, hc⟩ := segmentClip_isSome env seg i hb
    have hf : (createVideoSegment env seg i st).1 = some c := by
      rw [createVideoSegment_clip]; exact hc
    have ih' := ih (i + 1) (createVideoSegment env seg i st).2 (fun k hk => by
      have hx := h (k + 1) (by simpa using Nat.succ_lt_succ hk)
      have he : i + (k + 1) = (i + 1) + k := by omega
      rwa [he] at hx)
    have hshape : (renderLoop env (seg :: rest) i st).1 =
        c :: (renderLoop env rest (i + 1) (createVideoSegment env seg i st).2).1 := by
      show (match (createVideoSegment env seg i st).1 with
        | some c' => c' :: (renderLoop env rest (i + 1) (createVideoSegment env seg i st).2).1
        | none => (renderLoop env rest (i + 1) (createVideoSegment env seg i st).2).1) =
        c :: (renderLoop env rest (i + 1) (createVideoSegment env seg i st).2).1
      rw [hf]
    constructor
    · rw [hshape]
      simpa using ih'.1
    · intro k hk
      rw [hshape]
      cases k with
      | zero =>
        simpa using hc.symm
      | succ k =>
        have hk' : k < rest.length := by simpa using Nat.lt_of_succ_lt_succ hk
        have he : i + (k + 1) = (i + 1) + k := by omega
        simpa [he] using ih'.2 k hk'

/-! ## Lemmas about normalisation and the orchestrator -/

lemma normalizeScript_of_other :
    ∀ (items : List ScriptItem), ScriptItem.other ∈ items →
      normalizeScript items = .error .valueError := by
  intro items
  induction items with
  | nil => intro h; cases h
  | cons a l ih =>
    intro h
    rcases List.mem_cons.mp h with rfl | htail
    · rfl
    · cases a <;> simp [normalizeScript, normalizeOne, ih htail]

lemma normalizeScript_length :
    ∀ (items : List ScriptItem) (segs : List ScriptSegment),
      normalizeScript items = .ok segs → segs.length = items.length := by
  intro items
  induction items with
  | nil =>
    intro segs h
    cases h
    rfl
  | cons a l ih =>
    intro segs h
    cases ha : normalizeOne a with
    | error e =>
      unfold normalizeScript at h
      rw [ha] at h
      cases h
    | ok seg =>
      unfold normalizeScript at h
      rw [ha] at h
      cases hl : normalizeScript l with
      | error e => rw [hl] at h; cases h
      | ok segs' =>
        rw [hl] at h
        cases h
        simpa using ih segs' hl

lemma preState_reg (env : Env) (bgPath : String) :
    (preState env bgPath).registered = [] := by
  unfold preState initState createFile
  repeat' split
  all_goals rfl

lemma preState_temp (env : Env) (bgPath : String) :
    (preState env bgPath).tempFiles = [] := by
  unfold preState initState createFile
  repeat' split
  all_goals rfl

lemma preState_encoded (env : Env) (bgPath : String) :
    (preState env bgPath).encoded = false := by
  unfold preState initState createFile
  repeat' split
  all_goals rfl

lemma preState_fs (env : Env) (bgPath : String) (q : String)
    (h : q ∈ (preState env bgPath).fs) : q = bgPath ∨ q ∈ env.initFs := by
  unfold preState initState at h
  split at h
  · exact Or.inr h
  · rw [createFile_fs_mem] at h
    exact h

lemma createFile_registered (p : String) (st : RunState) :
    (createFile p st).registered = st.registered := by
  unfold createFile
  split <;> rfl

lemma createFile_renderAttempts (p : String) (st : RunState) :
    (createFile p st).renderAttempts = st.renderAttempts := by
  unfold createFile
  split <;> rfl

lemma generateAux_of_norm_error (env : Env) (items : List ScriptItem)
    (bgPath outPath : String) (e : PyErr)
    (hn : normalizeScript items = .error e) :
    generateAux env items bgPath outPath = ⟨.error e, [], initState env⟩ := by
  unfold generateAux
  rw [hn]

lemma generateAux_of_norm_nil (env : Env) (items : List ScriptItem)
    (bgPath outPath : String)
    (hn : normalizeScript items = .ok []) :
    generateAux env items bgPath outPath =
      ⟨.error .valueError, [], preState env bgPath⟩ := by
  unfold generateAux
  rw [hn]
  rfl

lemma generateAux_clips_of_ok (env : Env) (items : List ScriptItem)
    (bgPath outPath : String) (segs : List ScriptSegment)
    (h1 : normalizeScript items = .ok segs) (hne : segs ≠ []) :
    (generateAux env items bgPath outPath).clips =
      (renderLoop env segs 0 (preState env bgPath)).1 := by
  unfold generateAux
  rw [h1]
  have he : ¬(segs.isEmpty = true) := by
    intro hh
    exact hne (List.isEmpty_iff.mp hh)
  dsimp only
  rw [if_neg he]
  repeat' split
  all_goals rfl

lemma generateAux_of_clips_nil (env : Env) (items : List ScriptItem)
    (bgPath outPath : String) (segs : List ScriptSegment)
    (hn : normalizeScript items = .ok segs) (hne : segs ≠ [])
    (hcl : (renderLoop env segs 0 (preState env bgPath)).1 = []) :
    generateAux env items bgPath outPath =
      ⟨.error .valueError, (renderLoop env segs 0 (preState env bgPath)).1,
        (renderLoop env segs 0 (preState env bgPath)).2⟩ := by
  unfold generateAux
  rw [hn]
  have he : ¬(segs.isEmpty = true) := by
    intro hh
    exact hne (List.isEmpty_iff.mp hh)
  dsimp only
  rw [if_neg he, if_pos (List.isEmpty_iff.mpr hcl)]

lemma generateAux_reg_temp (env : Env) (items : List ScriptItem)
    (bgPath outPath : String) :
    ((generateAux env items bgPath outPath).state).registered =
      ((generateAux env items bgPath outPath).state).tempFiles := by
  unfold generateAux
  split
  · rfl
  · rename_i segs heq
    dsimp only
    split
    · rw [preState_reg, preState_temp]
    · have hrt : ((renderLoop env segs 0 (preState env bgPath)).2).registered =
          ((renderLoop env segs 0 (preState env bgPath)).2).tempFiles :=
        renderLoop_reg_temp env segs 0 _ (by rw [preState_reg, preState_temp])
      split
      · exact hrt
      · split
        · exact hrt
        · split
          · exact hrt
          · dsimp only
            rw [createFile_registered, createFile_tempFiles]
            exact hrt

/-! ## Claim theorems: renderer and orchestrator -/

/-- Claim C2: when the background loads, the segment renderer produces a
clip in all cases — with effective duration `max(segment duration, measured
audio duration)` and the audio track when speech synthesis succeeds, and an
image-only clip held for the segment's own duration when synthesis fails —
so a synthesis failure never crashes the run. -/
theorem c2_segment_renderer (env : Env) (seg : ScriptSegment) (i : Nat)
    (st : RunState) (hbg : env.bgLoad i = none) :
    (∀ d, env.tts i = .ok d →
      (createVideoSegment env seg i st).1 =
        some { duration := max seg.duration d, audio := some d,
               image := tempImagePath i }) ∧
    (∀ e, env.tts i = .error e →
      (createVideoSegment env seg i st).1 =
        some { duration := seg.duration, audio := none,
               image := tempImagePath i }) ∧
    ∃ c, (createVideoSegment env seg i st).1 = some c := by
  refine ⟨?_, ?_, ?_⟩
  · intro d hd
    rw [createVideoSegment_clip]
    unfold segmentClip
    rw [hbg, hd]
  · intro e he2
    rw [createVideoSegment_clip]
    unfold segmentClip
    rw [hbg, he2]
  · rw [createVideoSegment_clip]
    exact segmentClip_isSome env seg i hbg

/-- Environment for the C2 witness: background loads, synthesis succeeds
with a measured audio duration of 1.5 seconds. -/
def envC2 : Env :=
  { initFs := ["bg.jpg"], bgLoad := fun _ => none, tts := fun _ => .ok (3 / 2),
    concatErr := none, writeErr := none, unlinkFails := fun _ => false }

/-- Segment for the C2 witness: explicit duration of 3 seconds. -/
def segC2 : ScriptSegment := mkScriptSegment "hello world" (some 3) none

/-- Witness for C2 on the success path. -/
theorem c2_segment_renderer_witness :
    (createVideoSegment envC2 segC2 0 (initState envC2)).1 =
      some { duration := max segC2.duration (3 / 2), audio := some (3 / 2),
             image := tempImagePath 0 } :=
  (c2_segment_renderer envC2 segC2 0 (initState envC2) rfl).1 (3 / 2) rfl

/-- Claim C3: in every run whose input normalises, the clip list handed to
concatenation is exactly the per-segment renders in input-index order
(`filterMap` over the indices — successful clips form the order-preserving
sublist of the input, with no reordering, whether or not some renders
fail); and when every per-segment render succeeds, the number of clips
equals the number of input items (and of segments) and the `k`-th clip is
the render of the `k`-th segment. -/
theorem c3_clip_count_and_order (env : Env) (items : List ScriptItem)
    (bgPath outPath : String) (segs : List ScriptSegment)
    (h1 : normalizeScript items = .ok segs) :
    ((generateAux env items bgPath outPath).clips =
      (List.range segs.length).filterMap
        (fun k => segmentClip env (segs.getD k default) k)) ∧
    ((∀ k, k < segs.length → env.bgLoad k = none) →
      ((generateAux env items bgPath outPath).clips).length = items.length ∧
      ((generateAux env items bgPath outPath).clips).length = segs.length ∧
      ∀ k, k < segs.length →
        ((generateAux env items bgPath outPath).clips)[k]? =
          segmentClip env (segs.getD k default) k) := by
  have hlen := normalizeScript_length items segs h1
  cases segs with
  | nil =>
    rw [generateAux_of_norm_nil env items bgPath outPath h1]
    refine ⟨rfl, fun _ => ⟨?_, rfl, ?_⟩⟩
    · simpa using hlen
    · intro k hk
      exact absurd hk (by simp)
  | cons s rest =>
    have hne : (s :: rest : List ScriptSegment) ≠ [] := by simp
    rw [generateAux_clips_of_ok env items bgPath outPath _ h1 hne]
    constructor
    · rw [renderLoop_clips_eq]
      simp only [Nat.zero_add]
    · intro h2
      have hr := renderLoop_clips env (s :: rest) 0 (preState env bgPath)
        (fun k hk => by simpa using h2 k hk)
      refine ⟨?_, hr.1, ?_⟩
      · rw [hr.1]
        exact hlen
      · intro k hk
        simpa using hr.2 k hk

/-- Environment for the C3 witness: everything succeeds. -/
def envC3 : Env :=
  { initFs := ["bg.jpg"], bgLoad := fun _ => none, tts := fun _ => .ok 1,
    concatErr := none, writeErr := none, unlinkFails := fun _ => false }

/-- Input list for the C3 witness: a plain string and a (text, duration)
pair, as in the repository's demo. -/
def itemsC3 : List ScriptItem :=
  [ScriptItem.str "hello world", ScriptItem.pair "bye for now" 5]

/-- The normalised segments of `itemsC3`. -/
def segsC3 : List ScriptSegment :=
  [mkScriptSegment "hello world" none none,
   mkScriptSegment "bye for now" (some 5) none]

/-- Witness for C3: two input items, two clips. -/
theorem c3_clip_count_and_order_witness :
    ((generateAux envC3 itemsC3 "bg.jpg" "out.mp4").clips).length =
      itemsC3.length :=
  ((c3_clip_count_and_order envC3 itemsC3 "bg.jpg" "out.mp4" segsC3 rfl).2
    (fun _ _ => rfl)).1

/-- Environment for the C5 counterexample: an unexpected internal
`TypeError` is raised during concatenation. -/
def envC5 : Env :=
  { initFs := ["bg.jpg"], bgLoad := fun _ => none, tts := fun _ => .ok 1,
    concatErr := some .typeError, writeErr := none,
    unlinkFails := fun _ => false }

/-- Counterexample to claim C5 as stated: an unexpected internal error
(a `TypeError` during concatenation — not a missing-clips or encode
failure) is NOT propagated to the caller; `generate_video` returns the
failure value `False` instead, because `except Exception` catches every
exception. -/
theorem c5_no_propagation_counterexample :
    (generate envC5 [ScriptItem.str "hello"] "bg.jpg" "out.mp4").1 =
      .ok false ∧
    (generate envC5 [ScriptItem.str "hello"] "bg.jpg" "out.mp4").1 ≠
      .error PyErr.typeError := by
  refine ⟨rfl, fun he2 => ?_⟩
  rw [show (generate envC5 [ScriptItem.str "hello"] "bg.jpg" "out.mp4").1 =
    Except.ok false from rfl] at he2
  simp at he2

/-- Claim C5, amended: `generate_video` never lets ANY exception (expected
or unexpected — every modelled error derives from `Exception`) escape its
boundary: it always returns an explicit boolean result, and cleanup has
always run (the temp-file registry is cleared) before it returns. -/
theorem c5_error_handling_amended (env : Env) (items : List ScriptItem)
    (bgPath outPath : String) :
    (∃ b, (generate env items bgPath outPath).1 = .ok b) ∧
    ((generate env items bgPath outPath).2).tempFiles = [] := by
  refine ⟨?_, rfl⟩
  cases h : (generateAux env items bgPath outPath).result with
  | error e =>
    exact ⟨false, by unfold generate; dsimp only; rw [h]⟩
  | ok b =>
    exact ⟨b, by unfold generate; dsimp only; rw [h]⟩

/-- Claim C6, amended: after any run, every file registered in the
temp-file registry whose own `os.unlink` call does not fail is gone from
disk when `generate` returns — a per-file guarantee that holds even in
runs where the unlink of some other registered file fails.  (Deletion is
best-effort: a file whose own unlink fails is only logged, see the
counterexample.) -/
theorem c6_cleanup_amended (env : Env) (items : List ScriptItem)
    (bgPath outPath : String) (p : String)
    (hfail : env.unlinkFails p = false)
    (hreg : p ∈ ((generate env items bgPath outPath).2).registered) :
    p ∉ ((generate env items bgPath outPath).2).fs := by
  have hpt : p ∈ ((generateAux env items bgPath outPath).state).tempFiles := by
    have hrt := generateAux_reg_temp env items bgPath outPath
    rw [← hrt]
    exact hreg
  show p ∉ (cleanupTempFiles env (generateAux env items bgPath outPath).state).fs
  exact cleanupTempFiles_removes env _ p hpt hfail

/-- Environment for the C6 counterexample: everything succeeds except that
`os.unlink` fails on the temporary image of segment 0. -/
def envC6 : Env :=
  { initFs := ["bg.jpg"], bgLoad := fun _ => none,
    tts := fun _ => .error .gttsError, concatErr := none, writeErr := none,
    unlinkFails := fun p => p == "temp_image_0.png" }

/-- Counterexample to claim C6 as stated: a run completes successfully,
yet a file registered in the temp-file registry is still on disk when
`generate` returns, because its deletion failed and
`_cleanup_temp_files` only logs such failures. -/
theorem c6_cleanup_counterexample :
    (generate envC6 [ScriptItem.str "hi"] "bg.jpg" "out.mp4").1 = .ok true ∧
    "temp_image_0.png" ∈
      ((generate envC6 [ScriptItem.str "hi"] "bg.jpg" "out.mp4").2).registered ∧
    "temp_image_0.png" ∈
      ((generate envC6 [ScriptItem.str "hi"] "bg.jpg" "out.mp4").2).fs :=
  ⟨rfl, by decide, by decide⟩

/-- Environment for the C6 witness: a mixed run — speech synthesis
succeeds, the unlink of the temporary image fails, but the unlink of the
temporary audio file succeeds. -/
def envC6W : Env :=
  { initFs := ["bg.jpg"], bgLoad := fun _ => none,
    tts := fun _ => .ok 1, concatErr := none, writeErr := none,
    unlinkFails := fun p => p == "temp_image_0.png" }

/-- Witness for the amended C6: even in a run where another registered
file's unlink fails, the registered audio file — whose own unlink does not
fail — is gone after the run. -/
theorem c6_cleanup_witness :
    "temp_audio_0.mp3" ∉
      ((generate envC6W [ScriptItem.str "hi"] "bg.jpg" "out.mp4").2).fs :=
  c6_cleanup_amended envC6W [ScriptItem.str "hi"] "bg.jpg" "out.mp4"
    "temp_audio_0.mp3" rfl (by decide)

/-- Claim C7: an input list containing an item of unrecognised shape makes
the whole run fail before any rendering starts: no render is attempted,
nothing is encoded, and the run reports failure. -/
theorem c7_invalid_item (env : Env) (items : List ScriptItem)
    (bgPath outPath : String) (h : ScriptItem.other ∈ items) :
    (generate env items bgPath outPath).1 = .ok false ∧
    ((generate env items bgPath outPath).2).renderAttempts = [] ∧
    ((generate env items bgPath outPath).2).encoded = false := by
  have hn := normalizeScript_of_other items h
  have hg := generateAux_of_norm_error env items bgPath outPath .valueError hn
  unfold generate
  rw [hg]
  exact ⟨rfl, rfl, rfl⟩

/-- Environment for the C7 witness. -/
def envC7 : Env :=
  { initFs := ["bg.jpg"], bgLoad := fun _ => none, tts := fun _ => .ok 1,
    concatErr := none, writeErr := none, unlinkFails := fun _ => false }

/-- Witness for C7 at a list whose second item has an invalid shape. -/
theorem c7_invalid_item_witness :
    (generate envC7 [ScriptItem.str "a", ScriptItem.other] "bg.jpg"
      "out.mp4").1 = .ok false ∧
    ((generate envC7 [ScriptItem.str "a", ScriptItem.other] "bg.jpg"
      "out.mp4").2).renderAttempts = [] ∧
    ((generate envC7 [ScriptItem.str "a", ScriptItem.other] "bg.jpg"
      "out.mp4").2).encoded = false :=
  c7_invalid_item envC7 [ScriptItem.str "a", ScriptItem.other] "bg.jpg"
    "out.mp4" (by decide)

/-- Claim C8: a run in which zero per-segment renders succeed (the clip
list is empty — including the empty-input case) fails: the result is
`False`, the encode step never runs, and no file appears at the output
path (assuming the output path did not already exist, is distinct from the
background path, and its unlink does not fail). -/
theorem c8_zero_clips (env : Env) (items : List ScriptItem)
    (bgPath outPath : String)
    (hclips : (generateAux env items bgPath outPath).clips = [])
    (h1 : outPath ∉ env.initFs) (h2 : outPath ≠ bgPath)
    (h3 : env.unlinkFails outPath = false) :
    (generate env items bgPath outPath).1 = .ok false ∧
    ((generate env items bgPath outPath).2).encoded = false ∧
    outPath ∉ ((generate env items bgPath outPath).2).fs := by
  cases hn : normalizeScript items with
  | error e =>
    have hg := generateAux_of_norm_error env items bgPath outPath e hn
    unfold generate
    rw [hg]
    refine ⟨rfl, rfl, fun hc => ?_⟩
    exact h1 (cleanupTempFiles_subset env (initState env) outPath hc)
  | ok segs =>
    cases segs with
    | nil =>
      have hg := generateAux_of_norm_nil env items bgPath outPath hn
      unfold generate
      rw [hg]
      refine ⟨rfl, ?_, fun hc => ?_⟩
      · show (preState env bgPath).encoded = false
        exact preState_encoded env bgPath
      · have hc2 := cleanupTempFiles_subset env (preState env bgPath) outPath hc
        rcases preState_fs env bgPath outPath hc2 with heq | hmem
        · exact h2 heq
        · exact h1 hmem
    | cons s rest =>
      have hne : (s :: rest : List ScriptSegment) ≠ [] := by simp
      have hcl : (renderLoop env (s :: rest) 0 (preState env bgPath)).1 = [] := by
        rw [← generateAux_clips_of_ok env items bgPath outPath _ hn hne]
        exact hclips
      have hg := generateAux_of_clips_nil env items bgPath outPath _ hn hne hcl
      unfold generate
      rw [hg]
      refine ⟨rfl, ?_, fun hc => ?_⟩
      · show ((renderLoop env (s :: rest) 0 (preState env bgPath)).2).encoded = false
        rw [renderLoop_snd_encoded]
        exact preState_encoded env bgPath
      · have hc2 := cleanupTempFiles_subset env _ outPath hc
        rcases renderLoop_fs env (s :: rest) 0 (preState env bgPath) outPath hc2
          with hmem | htemp
        · rcases preState_fs env bgPath outPath hmem with heq | hmem2
          · exact h2 heq
          · exact h1 hmem2
        · exact cleanupTempFiles_removes env _ outPath htemp h3 hc

/-- Environment for the C8 witness: every background load fails, so zero
renders succeed. -/
def envC8 : Env :=
  { initFs := ["bg.jpg"], bgLoad := fun _ => some .osError,
    tts := fun _ => .ok 1, concatErr := none, writeErr := none,
    unlinkFails := fun _ => false }

/-- Witness for C8: a one-item script whose only render fails. -/
theorem c8_zero_clips_witness :
    (generate envC8 [ScriptItem.str "x"] "bg.jpg" "out.mp4").1 = .ok false ∧
    ((generate envC8 [ScriptItem.str "x"] "bg.jpg" "out.mp4").2).encoded =
      false ∧
    "out.mp4" ∉ ((generate envC8 [ScriptItem.str "x"] "bg.jpg" "out.mp4").2).fs :=
  c8_zero_clips envC8 [ScriptItem.str "x"] "bg.jpg" "out.mp4" rfl (by decide)
    (by decide) rfl
